import Mathlib

/-!
Verification of the planetlines-api service (`app/main.py`).

The file shallowly embeds the one-module FastAPI service: the pure string
formatters `format_utcoffset` and `dec_to_dm_str`, the temporal normalizer
`to_dt` (with CPython's `datetime.fromisoformat` modelled on the naive
`YYYY-MM-DDTHH:MM:SS` subset the endpoints produce), the defensive house
lookup `safe_house`, and the two POST endpoints `astro_eval` and `debug`.
Python floats are modelled as exact rationals, Python's banker's rounding
as `pyRound`, exceptions as explicit `Except` values carrying a message and
a list of stack frames, and the external chart engine (flatlib) as an
abstract `Engine` record behind its narrow call contract.
-/

namespace PlanetLines

/-- Python's built-in `round` on an exact rational: round half to even. -/
def pyRound (q : ℚ) : ℤ :=
  let f := ⌊q⌋
  let r := q - f
  if r < 1/2 then f
  else if 1/2 < r then f + 1
  else if f % 2 = 0 then f else f + 1

/-- Python's `round(x, 4)`: rounding to 4 decimal places, half to even. -/
def round4 (q : ℚ) : ℚ := ((pyRound (q * 10000) : ℚ)) / 10000

/-- Python's `f"{n:02d}"` for a nonnegative integer: zero-pad to width 2. -/
def pad2 (n : ℕ) : String := if n < 10 then "0" ++ Nat.repr n else Nat.repr n

/-- Python's `f"{n:04d}"` for a nonnegative integer: zero-pad to width 4. -/
def pad4 (n : ℕ) : String :=
  if n < 10 then "000" ++ Nat.repr n
  else if n < 100 then "00" ++ Nat.repr n
  else if n < 1000 then "0" ++ Nat.repr n
  else Nat.repr n

/-- `format_utcoffset` from `app/main.py`: sign, floored absolute hours,
rounded fractional minutes, both zero-padded to two digits. -/
def format_utcoffset (offset_hours : ℚ) : String :=
  let sign := if offset_hours ≥ 0 then "+" else "-"
  let ah := |offset_hours|
  let h := (⌊ah⌋).toNat
  let m := (pyRound ((ah - (h : ℚ)) * 60)).toNat
  sign ++ pad2 h ++ ":" ++ pad2 m

/-- The hemisphere letter chosen by `dec_to_dm_str` in `app/main.py`. -/
def hemiStr (value : ℚ) (is_lat : Bool) : String :=
  if is_lat then (if value ≥ 0 then "n" else "s")
  else (if value ≥ 0 then "e" else "w")

/-- `dec_to_dm_str` from `app/main.py`: truncated degrees, rounded
fractional minutes with a carry at 60, hemisphere letter in the middle. -/
def dec_to_dm_str (value : ℚ) (is_lat : Bool) : String :=
  let deg := (⌊|value|⌋).toNat
  let minutes := (pyRound ((|value| - (deg : ℚ)) * 60)).toNat
  let deg2 := if minutes = 60 then deg + 1 else deg
  let minutes2 := if minutes = 60 then 0 else minutes
  Nat.repr deg2 ++ hemiStr value is_lat ++ pad2 minutes2

/-- Modelled from the spec, section 4.1: `formatUtcOffset` reference
definition — sign `+` for offset ≥ 0 else `-`, HH the integer part of the
absolute offset, MM the fractional minutes rounded to nearest integer,
both zero-padded two digits. -/
def formatUtcOffset (hours : ℚ) : String :=
  (if 0 ≤ hours then "+" else "-") ++ pad2 (⌊|hours|⌋).toNat ++ ":" ++
    pad2 (pyRound ((|hours| - ((⌊|hours|⌋).toNat : ℚ)) * 60)).toNat

/-- Modelled from the spec, section 4.1: `decimalToDegreeMinuteString`
reference definition — deg the integer part of the absolute value, mm the
rounded fractional minutes with carry propagation at 60, hemisphere letter
`n`/`s` for latitude and `e`/`w` for longitude, zero positive. -/
def decimalToDegreeMinuteString (value : ℚ) (isLatitude : Bool) : String :=
  let deg := (⌊|value|⌋).toNat
  let mm := (pyRound ((|value| - (deg : ℚ)) * 60)).toNat
  let carriedDeg := if mm = 60 then deg + 1 else deg
  let carriedMm := if mm = 60 then 0 else mm
  let hemi := if isLatitude then (if value ≥ 0 then "n" else "s")
              else (if value ≥ 0 then "e" else "w")
  Nat.repr carriedDeg ++ hemi ++ pad2 carriedMm

/-- A naive calendar timestamp as produced by `datetime.fromisoformat`. -/
structure NaiveDT where
  year : ℕ
  month : ℕ
  day : ℕ
  hour : ℕ
  minute : ℕ
  second : ℕ
  deriving DecidableEq

/-- Proleptic Gregorian leap-year rule used by `datetime`. -/
def isLeap (y : ℕ) : Bool := (y % 4 = 0 && y % 100 ≠ 0) || y % 400 = 0

/-- Days in a month of the proleptic Gregorian calendar. -/
def days_in_month (y m : ℕ) : ℕ :=
  if m = 2 then (if isLeap y then 29 else 28)
  else if m = 4 ∨ m = 6 ∨ m = 9 ∨ m = 11 then 30
  else 31

/-- Numeric value of two decimal digit characters. -/
def num2 (a b : Char) : Option ℕ :=
  if a.isDigit && b.isDigit then some (10 * (a.toNat - 48) + (b.toNat - 48))
  else none

/-- Numeric value of four decimal digit characters. -/
def num4 (a b c d : Char) : Option ℕ :=
  if a.isDigit && b.isDigit && c.isDigit && d.isDigit then
    some (1000 * (a.toNat - 48) + 100 * (b.toNat - 48) + 10 * (c.toNat - 48) + (d.toNat - 48))
  else none

/-- CPython's `datetime.fromisoformat` restricted to the naive
`YYYY-MM-DD<sep>HH:MM:SS` shape the service always feeds it (any single
separator character, per CPython); everything else is a `ValueError`. -/
def fromisoformat (s : String) : Except String NaiveDT :=
  match s.toList with
  | [y1, y2, y3, y4, '-', m1, m2, '-', d1, d2, _, h1, h2, ':', n1, n2, ':', s1, s2] =>
    match num4 y1 y2 y3 y4, num2 m1 m2, num2 d1 d2, num2 h1 h2, num2 n1 n2, num2 s1 s2 with
    | some y, some mo, some d, some h, some mi, some se =>
      if y = 0 then Except.error "year 0 is out of range"
      else if ¬(1 ≤ mo ∧ mo ≤ 12) then Except.error "month must be in 1..12"
      else if ¬(1 ≤ d ∧ d ≤ days_in_month y mo) then Except.error "day is out of range for month"
      else if ¬(h ≤ 23) then Except.error "hour must be in 0..23"
      else if ¬(mi ≤ 59) then Except.error "minute must be in 0..59"
      else if ¬(se ≤ 59) then Except.error "second must be in 0..59"
      else Except.ok ⟨y, mo, d, h, mi, se⟩
    | _, _, _, _, _, _ => Except.error ("Invalid isoformat string: " ++ s)
  | _ => Except.error ("Invalid isoformat string: " ++ s)

/-- The request body of both POST endpoints (`BirthData` in `app/main.py`);
Python floats are modelled as exact rationals. -/
structure BirthData where
  birthdate_iso : String
  birthtime_24 : String
  latitude : ℚ
  longitude : ℚ
  timezone_name : Option String
  birthplace_text : Option String

/-- The combined string `to_dt` hands to `datetime.fromisoformat`. -/
def combinedStr (data : BirthData) : String :=
  data.birthdate_iso ++ "T" ++ data.birthtime_24 ++ ":00"

/-- A pytz timezone, reduced to the only capability the service uses:
the UTC offset (in seconds) that `tz.localize(naive).utcoffset()` yields
for a naive wall-clock timestamp. -/
structure TimeZone where
  offsetSecondsAt : NaiveDT → ℤ

/-- `pytz.UTC`: offset zero at every instant. -/
def utcTZ : TimeZone := ⟨fun _ => 0⟩

/-- The pytz timezone database, abstracted as a name lookup. -/
structure TZDB where
  lookup : String → Option TimeZone

/-- `pytz.timezone`: the name `"UTC"` is always recognized; any other name
is resolved through the database, `none` meaning `UnknownTimeZoneError`. -/
def pytz_lookup (db : TZDB) (name : String) : Option TimeZone :=
  if name = "UTC" then some utcTZ else db.lookup name

/-- `data.timezone_name or "UTC"`: Python `or` also replaces the empty
string, which is falsy. -/
def effective_tzname (data : BirthData) : String :=
  match data.timezone_name with
  | none => "UTC"
  | some s => if s = "" then "UTC" else s

/-- The `try: tz = pytz.timezone(tzname) except: tz = pytz.UTC` block of
`to_dt`: unrecognized names silently degrade to UTC. -/
def resolve_tz (db : TZDB) (data : BirthData) : TimeZone :=
  match pytz_lookup db (effective_tzname data) with
  | some t => t
  | none => utcTZ

/-- The flatlib `Datetime` value, modelled as the black-box record of the
three strings the service constructs it from. -/
structure Datetime where
  date : String
  time : String
  utcoffset : String
  deriving DecidableEq

/-- The flatlib `GeoPos` value: the two degree-minute hemisphere strings. -/
structure GeoPos where
  lat : String
  lon : String
  deriving DecidableEq

/-- The detail payload of a FastAPI `HTTPException`: either a plain message
(the 422 raised in `to_dt`) or the `{error, trace}` object built by the
broad handler in `astro_eval`. -/
inductive Detail where
  | msg : String → Detail
  | errTrace : String → List String → Detail
  deriving DecidableEq

/-- A FastAPI `HTTPException`: status code plus detail payload. -/
structure HTTPException where
  status : ℕ
  detail : Detail
  deriving DecidableEq

/-- A raised Python exception as the endpoints can observe it: either an
`HTTPException` or a plain exception with its message, in both cases
together with the traceback frames attached by the runtime. -/
inductive PyExc where
  | httpe : HTTPException → List String → PyExc
  | plain : String → List String → PyExc
  deriving DecidableEq

/-- The string rendering of a `Detail` (used by `str(e)`). -/
def detailStr : Detail → String
  | .msg s => s
  | .errTrace e _ => e

/-- Python `str(e)`: for a starlette `HTTPException` this is
`"<status>: <detail>"`, for a plain exception its message. -/
def excStr : PyExc → String
  | .httpe h _ => Nat.repr h.status ++ ": " ++ detailStr h.detail
  | .plain m _ => m

/-- The traceback frames carried by an exception. -/
def excFrames : PyExc → List String
  | .httpe _ f => f
  | .plain _ f => f

/-- The frames of the `HTTPException` raised inside `to_dt`. -/
def toDtFrames : List String := ["app/main.py: to_dt"]

/-- `to_dt` from `app/main.py`: resolve the timezone with silent UTC
fallback, parse the combined naive timestamp (raising a 422
`HTTPException` on failure), localize, and build a flatlib `Datetime`
from the `YYYY/MM/DD` date, `HH:MM` time and formatted UTC offset. -/
def to_dt (db : TZDB) (data : BirthData) : Except PyExc Datetime :=
  let tz := resolve_tz db data
  match fromisoformat (combinedStr data) with
  | .error e =>
      Except.error (.httpe ⟨422, .msg ("Invalid date/time: " ++ e)⟩ toDtFrames)
  | .ok ndt =>
      let offset_hours : ℚ := ((tz.offsetSecondsAt ndt : ℚ)) / 3600
      let offset_str := format_utcoffset offset_hours
      let date_str := pad4 ndt.year ++ "/" ++ pad2 ndt.month ++ "/" ++ pad2 ndt.day
      let time_str := pad2 ndt.hour ++ ":" ++ pad2 ndt.minute
      Except.ok ⟨date_str, time_str, offset_str⟩

/-- A flatlib body object: ecliptic longitude/latitude, sign label, and
the optional equatorial coordinates read through `getattr(_, _, 0.0)`. -/
structure Body where
  lon : ℚ
  lat : ℚ
  sign : String
  ra : Option ℚ
  decl : Option ℚ

/-- A flatlib chart, reduced to the capabilities the service uses:
fetching a body by name and the two fallible house-lookup APIs
(`chart.houses.getObjectHouse` composed with `int(getattr(h, "num", h))`,
and `int(chart.houseOf(_))`), each able to raise. -/
structure Chart where
  get : String → Body
  getObjectHouse : Body → Except String ℤ
  houseOf : Body → Except String ℤ

/-- The external chart engine: constructing a `Chart` from the normalized
instant and position can fail with a message and traceback frames. -/
structure Engine where
  mkChart : Datetime → GeoPos → Except (String × List String) Chart

/-- The fixed ordered body set `PLANETS` from `app/main.py`. -/
def PLANETS : List String :=
  ["Sun", "Moon", "Mercury", "Venus", "Mars", "Jupiter", "Saturn",
   "Uranus", "Neptune", "Pluto"]

/-- `safe_house` from `app/main.py`: primary lookup, then secondary
lookup, then `None`; never raises. -/
def safe_house (chart : Chart) (body_obj : Body) : Option ℤ :=
  match chart.getObjectHouse body_obj with
  | .ok h => some h
  | .error _ =>
      match chart.houseOf body_obj with
      | .ok h => some h
      | .error _ => none

/-- One entry of the `natal_planets` list in the `/astro_eval` response. -/
structure PlanetEntry where
  planet : String
  lon_ecl : ℚ
  lat_ecl : ℚ
  sign : String
  house : Option ℤ
  ra : ℚ
  decl : ℚ

/-- One entry of the `astro_lines` list: geometry is always absent. -/
structure AstroLine where
  planet : String
  type : String
  polyline_geojson : Option String

/-- The `/astro_eval` success payload. -/
structure AstroResp where
  astro_eval_summary : String
  natal_planets : List PlanetEntry
  astro_lines : List AstroLine
  birthplace_text : Option String
  latitude : ℚ
  longitude : ℚ

/-- The `/debug` success payload. -/
structure DebugResp where
  date : String
  time : String
  utcoffset : String
  lat_str : String
  lon_str : String
  timezone_name : String
  planets_used : List String
  deriving DecidableEq

/-- The planet dict built for body name `p` in the `/astro_eval` loop. -/
def planetEntry (chart : Chart) (p : String) : PlanetEntry :=
  let body := chart.get p
  { planet := p
    lon_ecl := round4 body.lon
    lat_ecl := round4 body.lat
    sign := body.sign
    house := safe_house chart body
    ra := round4 (body.ra.getD 0)
    decl := round4 (body.decl.getD 0) }

/-- The success payload assembled by `astro_eval` once the chart exists:
planet loop, templated summary, placeholder line cross-product, echoes. -/
def buildResp (chart : Chart) (data : BirthData) : AstroResp :=
  let planets := PLANETS.map (planetEntry chart)
  let sun := chart.get "Sun"
  let moon := chart.get "Moon"
  let summary := "Sonne in " ++ sun.sign ++ ", Mond in " ++ moon.sign ++
    ". Fokus auf " ++ sun.sign ++ " (Selbstausdruck) & " ++ moon.sign ++ " (Gefühle)."
  let lines := planets.flatMap (fun pe =>
    ["AC", "DC", "MC", "IC"].map (fun t =>
      ({ planet := pe.planet, type := t, polyline_geojson := none } : AstroLine)))
  { astro_eval_summary := summary
    natal_planets := planets
    astro_lines := lines
    birthplace_text := data.birthplace_text
    latitude := data.latitude
    longitude := data.longitude }

/-- The body of the `try:` block in `astro_eval`: normalize, build the
position strings, construct the chart, assemble the response; every
failure is an exception value. -/
def astro_eval_body (eng : Engine) (db : TZDB) (data : BirthData) :
    Except PyExc AstroResp :=
  match to_dt db data with
  | .error e => Except.error e
  | .ok fdt =>
      let pos : GeoPos :=
        ⟨dec_to_dm_str data.latitude true, dec_to_dm_str data.longitude false⟩
      match eng.mkChart fdt pos with
      | .error (m, fr) => Except.error (.plain m fr)
      | .ok chart => Except.ok (buildResp chart data)

/-- `POST /astro_eval`: the broad `except Exception` converts every raised
exception — the normalizer's 422 `HTTPException` included — into an
HTTP 400 `HTTPException` whose detail holds `str(e)` and the traceback
formatted with `limit=4`. -/
def astro_eval (eng : Engine) (db : TZDB) (data : BirthData) :
    Except HTTPException AstroResp :=
  match astro_eval_body eng db data with
  | .ok r => Except.ok r
  | .error e =>
      Except.error ⟨400, .errTrace (excStr e) ((excFrames e).take 4)⟩

/-- How FastAPI surfaces an exception escaping an endpoint without a
handler: an `HTTPException` becomes its own response, anything else a
plain 500. -/
def fastapiError : PyExc → HTTPException
  | .httpe h _ => h
  | .plain _ _ => ⟨500, .msg "Internal Server Error"⟩

/-- `POST /debug`: normalize and format without touching the chart
engine; the normalizer's 422 propagates uncaught. -/
def debug (db : TZDB) (data : BirthData) : Except HTTPException DebugResp :=
  match to_dt db data with
  | .error e => Except.error (fastapiError e)
  | .ok fdt =>
      Except.ok
        { date := fdt.date
          time := fdt.time
          utcoffset := fdt.utcoffset
          lat_str := dec_to_dm_str data.latitude true
          lon_str := dec_to_dm_str data.longitude false
          timezone_name := effective_tzname data
          planets_used := PLANETS }

/-- The HTTP status of an endpoint outcome, `none` on success. -/
def statusOf {α : Type} : Except HTTPException α → Option ℕ
  | .ok _ => none
  | .error e => some e.status

/-- Checks that a string is exactly two decimal digits. -/
def twoDigits (s : String) : Bool :=
  match s.toList with
  | [a, b] => a.isDigit && b.isDigit
  | _ => false

/-- Checks the regex `[+-][0-9][0-9]:[0-9][0-9]` anchored on both ends. -/
def offsetPattern (s : String) : Bool :=
  match s.toList with
  | [c0, c1, c2, c3, c4, c5] =>
      (c0 == '+' || c0 == '-') && c1.isDigit && c2.isDigit && (c3 == ':') &&
        c4.isDigit && c5.isDigit
  | _ => false

theorem pad2_twoDigits : ∀ n : ℕ, n < 100 → twoDigits (pad2 n) = true := by decide

theorem twoDigits_exists (s : String) (h : twoDigits s = true) :
    ∃ a b, s.toList = [a, b] ∧ a.isDigit = true ∧ b.isDigit = true := by
  unfold twoDigits at h
  rcases hs : s.toList with _ | ⟨a, _ | ⟨b, _ | ⟨c, l⟩⟩⟩ <;> rw [hs] at h
  · simp at h
  · simp at h
  · simp only [Bool.and_eq_true] at h
    exact ⟨a, b, rfl, h.1, h.2⟩
  · simp at h

theorem offsetPattern_build (s0 : String) (a b : ℕ)
    (hs : s0 = "+" ∨ s0 = "-") (ha : a < 100) (hb : b < 100) :
    offsetPattern (s0 ++ pad2 a ++ ":" ++ pad2 b) = true := by
  obtain ⟨x, y, hxy, hx, hy⟩ := twoDigits_exists _ (pad2_twoDigits a ha)
  obtain ⟨u, v, huv, hu, hv⟩ := twoDigits_exists _ (pad2_twoDigits b hb)
  have hl : (s0 ++ pad2 a ++ ":" ++ pad2 b).toList
      = s0.toList ++ ((pad2 a).toList ++ ([':'] ++ (pad2 b).toList)) := by
    simp [String.toList]
  rcases hs with rfl | rfl <;>
    · unfold offsetPattern
      rw [hl, hxy, huv]
      simp [hx, hy, hu, hv]

theorem pyRound_floor_cases (q : ℚ) : pyRound q = ⌊q⌋ ∨ pyRound q = ⌊q⌋ + 1 := by
  unfold pyRound
  dsimp only
  split_ifs <;> simp

theorem pyRound_le (q : ℚ) (c : ℤ) (h : q < (c : ℚ)) : pyRound q ≤ c := by
  have hf : ⌊q⌋ < c := Int.floor_lt.mpr h
  rcases pyRound_floor_cases q with h1 | h1 <;> rw [h1] <;> omega

/-- The cast of `⌊x⌋.toNat` back to the rationals, for nonnegative `x`. -/
theorem floor_toNat_cast (x : ℚ) (hx : 0 ≤ x) :
    (((⌊x⌋).toNat : ℚ)) = ((⌊x⌋ : ℚ)) := by
  have h0 : (0 : ℤ) ≤ ⌊x⌋ := Int.floor_nonneg.mpr hx
  exact_mod_cast congrArg (fun z : ℤ => (z : ℚ)) (Int.toNat_of_nonneg h0)

/-- The rounded fractional minutes of a nonnegative quantity never exceed
60: the raw fractional part is in `[0, 1)`. -/
theorem minutes_le_60 (x : ℚ) (hx : 0 ≤ x) :
    (pyRound ((x - (((⌊x⌋).toNat : ℚ))) * 60)).toNat ≤ 60 := by
  rw [floor_toNat_cast x hx]
  have hfr1 : x - ((⌊x⌋ : ℚ)) < 1 := by
    have := Int.lt_floor_add_one x
    linarith
  have h60 : (x - ((⌊x⌋ : ℚ))) * 60 < ((60 : ℤ) : ℚ) := by
    have := mul_lt_mul_of_pos_right hfr1 (show (0 : ℚ) < 60 by norm_num)
    push_cast
    linarith
  have := pyRound_le _ 60 h60
  omega

theorem format_utcoffset_zero : format_utcoffset 0 = "+00:00" := by
  with_unfolding_all rfl

/-- The minute field of `format_utcoffset`, as a bounded natural. -/
theorem format_utcoffset_shape (q : ℚ) :
    ∃ a b : ℕ, b ≤ 60 ∧ ((a : ℤ)) = ⌊|q|⌋ ∧
      format_utcoffset q = (if q ≥ 0 then "+" else "-") ++ pad2 a ++ ":" ++ pad2 b := by
  refine ⟨(⌊|q|⌋).toNat, (pyRound ((|q| - (((⌊|q|⌋).toNat : ℚ))) * 60)).toNat,
    minutes_le_60 |q| (abs_nonneg q), ?_, rfl⟩
  exact Int.toNat_of_nonneg (Int.floor_nonneg.mpr (abs_nonneg q))

/-- C4: `format_utcoffset` satisfies its reference definition
`formatUtcOffset` (sign `+` exactly when the offset is nonnegative, HH the
zero-padded integer part of the absolute offset, MM the zero-padded
nearest-integer rounding of the fractional minutes), it is total, the
output matches `[+-][0-9][0-9]:[0-9][0-9]` for every offset in
`[-12, 14]`, and `format_utcoffset 0 = "+00:00"`,
`format_utcoffset (-5.5) = "-05:30"`, `format_utcoffset 5.75 = "+05:45"`. -/
theorem format_utcoffset_spec (h : ℚ) (hlo : -12 ≤ h) (hhi : h ≤ 14) :
    (∀ q : ℚ, format_utcoffset q = formatUtcOffset q) ∧
    offsetPattern (format_utcoffset h) = true ∧
    format_utcoffset 0 = "+00:00" ∧
    format_utcoffset (-5.5) = "-05:30" ∧
    format_utcoffset (5.75) = "+05:45" := by
  refine ⟨fun q => rfl, ?_, by with_unfolding_all rfl, by with_unfolding_all rfl,
    by with_unfolding_all rfl⟩
  obtain ⟨a, b, hb, ha, heq⟩ := format_utcoffset_shape h
  rw [heq]
  apply offsetPattern_build
  · split_ifs <;> simp
  · have habs : |h| ≤ 14 := abs_le.mpr ⟨by linarith, hhi⟩
    have h14 : ⌊|h|⌋ ≤ 14 := by
      calc ⌊|h|⌋ ≤ ⌊(14 : ℚ)⌋ := Int.floor_le_floor habs
        _ = 14 := by norm_num
    omega
  · omega

/-- C4 witness: the bounds hold at the concrete offset 1 and the theorem
instantiates there. -/
theorem format_utcoffset_spec_witness :
    offsetPattern (format_utcoffset 1) = true ∧ format_utcoffset 0 = "+00:00" :=
  ⟨(format_utcoffset_spec 1 (by norm_num) (by norm_num)).2.1,
   (format_utcoffset_spec 1 (by norm_num) (by norm_num)).2.2.1⟩

/-- C5: `dec_to_dm_str` satisfies its reference definition
`decimalToDegreeMinuteString` (degrees the integer part of the absolute
value, rounded fractional minutes kept in 0–59 by carrying into the
degrees, hemisphere letter `n`/`s` for latitude and `e`/`w` for longitude
with zero positive), the minutes field printed never exceeds 59, and
`dec_to_dm_str 48.3069 true = "48n18"`,
`dec_to_dm_str 14.2858 false = "14e17"`, with a carry example rounding
59.598 raw minutes up to the next degree. -/
theorem dec_to_dm_str_spec :
    (∀ v : ℚ, ∀ l : Bool, dec_to_dm_str v l = decimalToDegreeMinuteString v l) ∧
    (∀ v : ℚ, ∀ l : Bool, ∃ d m : ℕ, m ≤ 59 ∧
      dec_to_dm_str v l = Nat.repr d ++ hemiStr v l ++ pad2 m) ∧
    dec_to_dm_str (48.3069) true = "48n18" ∧
    dec_to_dm_str (14.2858) false = "14e17" ∧
    dec_to_dm_str (10.9933) true = "11n00" := by
  refine ⟨fun v l => rfl, ?_, by with_unfolding_all rfl, by with_unfolding_all rfl,
    by with_unfolding_all rfl⟩
  intro v l
  by_cases h60 : (pyRound ((|v| - (((⌊|v|⌋).toNat : ℚ))) * 60)).toNat = 60
  · exact ⟨(⌊|v|⌋).toNat + 1, 0, by norm_num, by simp [dec_to_dm_str, h60]⟩
  · refine ⟨(⌊|v|⌋).toNat, (pyRound ((|v| - (((⌊|v|⌋).toNat : ℚ))) * 60)).toNat, ?_,
      by simp [dec_to_dm_str, h60]⟩
    have := minutes_le_60 |v| (abs_nonneg v)
    omega

/-- C10: `format_utcoffset` performs no minute-to-hour carry: at the
offset 1.9999 the fractional minutes round to 60 and the function returns
"+01:60" rather than "+02:00", unlike `dec_to_dm_str`, which carries the
same value to "2n00". -/
theorem format_utcoffset_no_carry :
    format_utcoffset (1.9999) = "+01:60" ∧
    format_utcoffset (1.9999) ≠ "+02:00" ∧
    dec_to_dm_str (1.9999) true = "2n00" :=
  ⟨by with_unfolding_all rfl, by with_unfolding_all decide, by with_unfolding_all rfl⟩

/-- A concrete flatlib body used to instantiate the theorems. -/
def bodyEx : Body := ⟨12345/100, -54321/1000, "Leo", some (101/10), none⟩

/-- A chart whose primary house lookup fails and secondary succeeds. -/
def chartFallback : Chart :=
  ⟨fun _ => bodyEx, fun _ => .error "primary failed", fun _ => .ok 7⟩

/-- An engine that always succeeds with `chartFallback`. -/
def engEx : Engine := ⟨fun _ _ => .ok chartFallback⟩

/-- An engine whose chart construction always raises. -/
def engFail : Engine :=
  ⟨fun _ _ => .error ("boom", ["f1", "f2", "f3", "f4", "f5"])⟩

/-- A timezone database that recognizes no name at all. -/
def dbEx : TZDB := ⟨fun _ => none⟩

/-- The example request from the pydantic field examples. -/
def dataEx : BirthData :=
  ⟨"1983-07-04", "12:10", 48.3069, 14.2858, some "Europe/Vienna", some "Linz, Austria"⟩

/-- The example request with the malformed date the spec names. -/
def dataBad : BirthData :=
  ⟨"1983-13-99", "12:10", 48.3069, 14.2858, some "Europe/Vienna", some "Linz, Austria"⟩

/-- The normalized instant of `dataEx` under an unknown timezone. -/
def fdtEx : Datetime := ⟨"1983/07/04", "12:10", "+00:00"⟩

/-- C6: `safe_house` never raises: it first attempts the primary lookup
`chart.houses.getObjectHouse`, whose success short-circuits; on its
failure it attempts the secondary `chart.houseOf`, whose success
short-circuits; when both fail it returns an absent house (`none`). -/
theorem safe_house_spec (c : Chart) (b : Body) :
    (∀ h : ℤ, c.getObjectHouse b = .ok h → safe_house c b = some h) ∧
    (∀ (e : String) (h : ℤ), c.getObjectHouse b = .error e →
      c.houseOf b = .ok h → safe_house c b = some h) ∧
    (∀ e f : String, c.getObjectHouse b = .error e →
      c.houseOf b = .error f → safe_house c b = none) := by
  refine ⟨fun h hp => ?_, fun e h hp hs2 => ?_, fun e f hp hs2 => ?_⟩
  · simp [safe_house, hp]
  · simp [safe_house, hp, hs2]
  · simp [safe_house, hp, hs2]

/-- C6 witness: on a chart whose primary lookup fails and whose secondary
returns 7, `safe_house` returns `some 7`. -/
theorem safe_house_spec_witness : safe_house chartFallback bodyEx = some 7 :=
  (safe_house_spec chartFallback bodyEx).2.1 "primary failed" 7 rfl rfl

/-- C3: when `timezone_name` is absent or not recognized by pytz, `to_dt`
does not raise on the timezone: it silently substitutes UTC, and the
normalized instant carries the UTC offset string `"+00:00"` (given that
the date/time itself parses). -/
theorem to_dt_unknown_tz_utc (db : TZDB) (data : BirthData) (ndt : NaiveDT)
    (htz : ∀ s, data.timezone_name = some s → pytz_lookup db s = none)
    (hp : fromisoformat (combinedStr data) = .ok ndt) :
    to_dt db data =
      .ok ⟨pad4 ndt.year ++ "/" ++ pad2 ndt.month ++ "/" ++ pad2 ndt.day,
           pad2 ndt.hour ++ ":" ++ pad2 ndt.minute, "+00:00"⟩ := by
  have htzr : resolve_tz db data = utcTZ := by
    unfold resolve_tz effective_tzname
    rcases hname : data.timezone_name with _ | s
    · simp [pytz_lookup]
    · by_cases hse : s = ""
      · simp [hse, pytz_lookup]
      · simp [hse, htz s hname]
  unfold to_dt
  rw [htzr, hp]
  simp only [utcTZ, Int.cast_zero, zero_div, format_utcoffset_zero]

/-- C3 witness: `dataEx` with the unrecognized name "Europe/Vienna"
normalizes to offset "+00:00". -/
theorem to_dt_unknown_tz_utc_witness : to_dt dbEx dataEx = .ok fdtEx := by
  have h := to_dt_unknown_tz_utc dbEx dataEx ⟨1983, 7, 4, 12, 10, 0⟩
    (fun s hs => by
      have hsv : s = "Europe/Vienna" := by
        have h2 : (some "Europe/Vienna" : Option String) = some s := hs
        exact (Option.some_inj.mp h2).symm
      subst hsv
      rfl)
    (by with_unfolding_all rfl)
  exact h.trans (by with_unfolding_all rfl)

/-- C2: every exception escaping the body of `astro_eval` — normalization,
chart construction and response assembly included — is converted at the
endpoint boundary into a structured HTTP 400 whose detail holds the
exception message and the traceback truncated to at most 4 frames; no
unstructured fault propagates. -/
theorem astro_eval_catches_all (eng : Engine) (db : TZDB) (data : BirthData)
    (exc : PyExc) (h : astro_eval_body eng db data = .error exc) :
    astro_eval eng db data =
      .error ⟨400, .errTrace (excStr exc) ((excFrames exc).take 4)⟩ ∧
    ((excFrames exc).take 4).length ≤ 4 := by
  constructor
  · unfold astro_eval
    rw [h]
  · exact List.length_take_le 4 (excFrames exc)

/-- C2 witness: a 5-frame engine failure surfaces as a 400 whose trace is
cut to the first 4 frames. -/
theorem astro_eval_catches_all_witness :
    astro_eval engFail dbEx dataEx =
      .error ⟨400, .errTrace "boom" ["f1", "f2", "f3", "f4"]⟩ := by
  have h := astro_eval_catches_all engFail dbEx dataEx
    (.plain "boom" ["f1", "f2", "f3", "f4", "f5"]) (by with_unfolding_all rfl)
  exact h.1.trans (by rfl)

/-- Inversion: a successful `astro_eval` comes from a successful body. -/
theorem astro_eval_ok_inv (eng : Engine) (db : TZDB) (data : BirthData)
    (r : AstroResp) (h : astro_eval eng db data = .ok r) :
    astro_eval_body eng db data = .ok r := by
  unfold astro_eval at h
  rcases hb : astro_eval_body eng db data with e | r2 <;> rw [hb] at h
  · exact absurd h (by simp)
  · simpa using h

/-- Inversion: a successful body response is `buildResp` of some chart. -/
theorem astro_eval_body_ok_inv (eng : Engine) (db : TZDB) (data : BirthData)
    (r : AstroResp) (h : astro_eval_body eng db data = .ok r) :
    ∃ chart, r = buildResp chart data := by
  unfold astro_eval_body at h
  rcases hdt : to_dt db data with e | fdt <;> rw [hdt] at h
  · exact absurd h (by simp)
  · dsimp only at h
    rcases hc : eng.mkChart fdt ⟨dec_to_dm_str data.latitude true,
        dec_to_dm_str data.longitude false⟩ with ⟨m, fr⟩ | chart <;> rw [hc] at h
    · exact absurd h (by simp)
    · exact ⟨chart, by simpa using h.symm⟩

/-- C9: every successful `/astro_eval` response echoes `latitude`,
`longitude` and `birthplace_text` exactly as given in the request. -/
theorem astro_eval_echo (eng : Engine) (db : TZDB) (data : BirthData)
    (r : AstroResp) (h : astro_eval eng db data = .ok r) :
    r.latitude = data.latitude ∧ r.longitude = data.longitude ∧
      r.birthplace_text = data.birthplace_text := by
  obtain ⟨chart, rfl⟩ := astro_eval_body_ok_inv eng db data r
    (astro_eval_ok_inv eng db data r h)
  exact ⟨rfl, rfl, rfl⟩

/-- Extracts a success payload, with a fallback for the error case. -/
def getOk : Except HTTPException AstroResp → AstroResp → AstroResp
  | .ok r, _ => r
  | .error _, d => d

/-- The success payload of `/astro_eval` on the concrete example. -/
def respEx : AstroResp :=
  getOk (astro_eval engEx dbEx dataEx) (buildResp chartFallback dataEx)

/-- C9 witness: on the concrete example request the echoed fields equal
the inputs. -/
theorem astro_eval_echo_witness :
    respEx.latitude = dataEx.latitude ∧ respEx.longitude = dataEx.longitude ∧
      respEx.birthplace_text = dataEx.birthplace_text :=
  astro_eval_echo engEx dbEx dataEx respEx (by with_unfolding_all rfl)

/-- C7: when normalization and chart construction succeed, the
`/astro_eval` response holds exactly 10 planet entries — one per body of
the fixed ordered `PLANETS` list, with ecliptic coordinates rounded to 4
decimals, the sign label, the `safe_house` house (integer or absent) and
the optional equatorial coordinates defaulted to 0 — and exactly 40 line
records, the cross-product of the 10 bodies with the types AC, DC, MC,
IC, each with geometry absent. -/
theorem astro_eval_counts (eng : Engine) (db : TZDB) (data : BirthData)
    (fdt : Datetime) (c : Chart)
    (h1 : to_dt db data = .ok fdt)
    (h2 : eng.mkChart fdt ⟨dec_to_dm_str data.latitude true,
            dec_to_dm_str data.longitude false⟩ = .ok c) :
    ∃ r, astro_eval eng db data = .ok r ∧
      r.natal_planets.length = 10 ∧
      r.natal_planets.map PlanetEntry.planet = PLANETS ∧
      (∀ pe ∈ r.natal_planets,
        pe.lon_ecl = round4 ((c.get pe.planet).lon) ∧
        pe.lat_ecl = round4 ((c.get pe.planet).lat) ∧
        pe.sign = (c.get pe.planet).sign ∧
        pe.house = safe_house c (c.get pe.planet) ∧
        pe.ra = round4 (((c.get pe.planet).ra).getD 0) ∧
        pe.decl = round4 (((c.get pe.planet).decl).getD 0)) ∧
      r.astro_lines.length = 40 ∧
      r.astro_lines = PLANETS.flatMap (fun p =>
        ["AC", "DC", "MC", "IC"].map (fun t => AstroLine.mk p t none)) := by
  have hrun : astro_eval eng db data = .ok (buildResp c data) := by
    unfold astro_eval astro_eval_body
    rw [h1]
    dsimp only
    rw [h2]
  refine ⟨buildResp c data, hrun, rfl, rfl, ?_, rfl, rfl⟩
  intro pe hpe
  have hpl : (buildResp c data).natal_planets = PLANETS.map (planetEntry c) := rfl
  rw [hpl] at hpe
  simp only [PLANETS, List.map_cons, List.map_nil, List.mem_cons,
    List.not_mem_nil, or_false] at hpe
  rcases hpe with rfl | rfl | rfl | rfl | rfl | rfl | rfl | rfl | rfl | rfl <;>
    exact ⟨rfl, rfl, rfl, rfl, rfl, rfl⟩

/-- C7 witness: the concrete example request yields the 10 planet entries
and 40 line records. -/
theorem astro_eval_counts_witness :
    ∃ r, astro_eval engEx dbEx dataEx = .ok r ∧
      r.natal_planets.length = 10 ∧ r.astro_lines.length = 40 := by
  obtain ⟨r, hr, h10, _, _, h40, _⟩ :=
    astro_eval_counts engEx dbEx dataEx fdtEx chartFallback
      (by with_unfolding_all rfl) rfl
  exact ⟨r, hr, h10, h40⟩

/-- C8: for every request whose date/time parses, `/debug` returns the
normalized calendar date as `YYYY/MM/DD`, the clock time as zero-padded
24-hour `HH:MM`, the UTC offset string produced by `format_utcoffset`,
and the two `dec_to_dm_str` strings for latitude and longitude; `debug`
takes no chart engine at all, so the chart engine is never invoked. -/
theorem debug_spec (db : TZDB) (data : BirthData) (ndt : NaiveDT)
    (hp : fromisoformat (combinedStr data) = .ok ndt) :
    debug db data = .ok
      { date := pad4 ndt.year ++ "/" ++ pad2 ndt.month ++ "/" ++ pad2 ndt.day
        time := pad2 ndt.hour ++ ":" ++ pad2 ndt.minute
        utcoffset := format_utcoffset
          ((((resolve_tz db data).offsetSecondsAt ndt : ℤ) : ℚ) / 3600)
        lat_str := dec_to_dm_str data.latitude true
        lon_str := dec_to_dm_str data.longitude false
        timezone_name := effective_tzname data
        planets_used := PLANETS } := by
  unfold debug to_dt
  rw [hp]

/-- C8 witness: the concrete example request produces the normalized
strings. -/
theorem debug_spec_witness :
    debug dbEx dataEx =
      .ok ⟨"1983/07/04", "12:10", "+00:00", "48n18", "14e17",
           "Europe/Vienna", PLANETS⟩ := by
  have h := debug_spec dbEx dataEx ⟨1983, 7, 4, 12, 10, 0⟩ (by with_unfolding_all rfl)
  exact h.trans (by with_unfolding_all rfl)

/-- C1 counterexample: on the malformed date "1983-13-99" the combined
timestamp does not parse, yet `POST /astro_eval` fails with HTTP 400 —
not 422 — because its broad handler catches the normalizer's 422;
`POST /debug` is the endpoint that fails with 422. -/
theorem astro_eval_bad_date_not_422 :
    (fromisoformat (combinedStr dataBad)).isOk = false ∧
    statusOf (astro_eval engEx dbEx dataBad) = some 400 ∧
    statusOf (astro_eval engEx dbEx dataBad) ≠ some 422 ∧
    statusOf (debug dbEx dataBad) = some 422 := by
  refine ⟨by with_unfolding_all rfl, by with_unfolding_all rfl, ?_,
    by with_unfolding_all rfl⟩
  with_unfolding_all decide

set_option maxRecDepth 8192

/-- C1 amended: for every request whose combined timestamp fails to
parse, `POST /debug` fails with HTTP 422 whose detail carries the parse
failure message, while `POST /astro_eval` catches that 422 and fails with
HTTP 400 whose detail error string still carries the parse failure
message. -/
theorem bad_timestamp_statuses (eng : Engine) (db : TZDB) (data : BirthData)
    (msg : String) (hp : fromisoformat (combinedStr data) = .error msg) :
    debug db data = .error ⟨422, .msg ("Invalid date/time: " ++ msg)⟩ ∧
    astro_eval eng db data = .error ⟨400,
      .errTrace ("422: " ++ ("Invalid date/time: " ++ msg)) (toDtFrames.take 4)⟩ := by
  have hdt : to_dt db data =
      .error (.httpe ⟨422, .msg ("Invalid date/time: " ++ msg)⟩ toDtFrames) := by
    unfold to_dt
    rw [hp]
  constructor
  · unfold debug
    rw [hdt]
    with_unfolding_all rfl
  · unfold astro_eval astro_eval_body
    rw [hdt]
    dsimp only [excStr, excFrames, detailStr]
    have h422 : Nat.repr 422 = "422" := rfl
    rw [h422]
    rfl

/-- C1 amended witness: the malformed date "1983-13-99" produces a 422
from `/debug` and a wrapped 400 from `/astro_eval`, both carrying the
parse failure message. -/
theorem bad_timestamp_statuses_witness :
    debug dbEx dataBad = .error ⟨422, .msg "Invalid date/time: month must be in 1..12"⟩ ∧
    astro_eval engEx dbEx dataBad = .error ⟨400,
      .errTrace "422: Invalid date/time: month must be in 1..12"
        ["app/main.py: to_dt"]⟩ := by
  have h := bad_timestamp_statuses engEx dbEx dataBad "month must be in 1..12" (by rfl)
  exact ⟨h.1.trans (by rfl), h.2.trans (by rfl)⟩

end PlanetLines
